import Mathlib

/-!
Verification of the clearanceAI risk-assessment and order-approval engine.

The repository splits the behaviour between an in-repo reference scoring
function (`generateAIAssessment` in `src/src/lib/mockData.ts`, together with
the built-in datasets `mockShipments` and `mockEntities`) and a Python
backend service reached through HTTP proxy routes
(`src/backend/api/assessments.ts`, `src/backend/api/orders.ts`); the Python
service itself is not part of the checked-in sources, only its callers and
its testing guide are.  Everything embedded from the checked-in sources is
translated definition-by-definition below; the parts that live only in the
missing service are modelled from the specification and marked as such in
their doc comments.
-/

/-- Risk level, `'high' | 'medium' | 'low'` in `mockData.ts`. -/
inductive RiskLevel where
  | high
  | medium
  | low
deriving DecidableEq, Repr

/-- Shipment status, `'pending' | 'approved' | 'rejected' | 'under_review'`. -/
inductive ShipmentStatus where
  | pending
  | approved
  | rejected
  | under_review
deriving DecidableEq, Repr

/-- News sentiment, `'negative' | 'neutral' | 'positive'`. -/
inductive Sentiment where
  | negative
  | neutral
  | positive
deriving DecidableEq, Repr

/-- Entity type, `'shipper' | 'importer' | 'manufacturer'`. -/
inductive EntityType where
  | shipper
  | importer
  | manufacturer
deriving DecidableEq, Repr

/-- `interface NewsItem` from `mockData.ts`. -/
structure NewsItem where
  date : String
  source : String
  headline : String
  sentiment : Sentiment
  excerpt : String
deriving DecidableEq, Repr

/-- `interface TradingPattern` from `mockData.ts`. -/
structure TradingPattern where
  commodity : String
  frequency : Nat
  lastShipment : String
  normalOrigins : List String
deriving DecidableEq, Repr

/-- The `blacklistStatus` object inside `interface EntityProfile`. -/
structure BlacklistStatus where
  list60B : Bool
  approvedManufacturer : Bool
  otherFlags : List String
deriving DecidableEq, Repr

/-- `interface EntityProfile` from `mockData.ts`. -/
structure EntityProfile where
  id : String
  name : String
  type : EntityType
  riskLevel : RiskLevel
  riskScore : Nat
  country : String
  registrationDate : String
  lastActivity : String
  blacklistStatus : BlacklistStatus
  newsItems : List NewsItem
  tradingPatterns : List TradingPattern
deriving DecidableEq, Repr

/-- `interface ShipmentRecord` from `mockData.ts`. -/
structure ShipmentRecord where
  id : String
  date : String
  shipper : String
  importer : String
  commodity : String
  origin : String
  value : Nat
  riskLevel : RiskLevel
  riskScore : Nat
  flags : List String
  status : ShipmentStatus
deriving DecidableEq, Repr

/-- Result type of `generateAIAssessment` (the inline record type in
`mockData.ts`); `entityChecks : Record<string, string>` is embedded as an
association list in source order. -/
structure AssessmentResponse where
  riskLevel : RiskLevel
  riskScore : Nat
  flags : List String
  entityChecks : List (String × String)
  recommendations : List String
  patternAnalysis : String
  aiInsights : String
deriving DecidableEq, Repr

/-- Input of `generateAIAssessment` (`shipmentData : Record<string, string>`).
Only the fields the engine reads are embedded; each is optional, matching the
`shipmentData.commodity?` / `shipmentData.origin?` optional accesses and the
required-field set `{shipper, importer, commodity, origin}`. -/
structure ShipmentData where
  shipper : Option String
  importer : Option String
  commodity : Option String
  origin : Option String
deriving DecidableEq, Repr

/-- ASCII lower-casing, embedding JavaScript `String.prototype.toLowerCase`
on the ASCII identifiers used by the data (character-wise `Char.toLower`
over the underlying character list). -/
def strToLower (s : String) : String := String.mk (s.data.map Char.toLower)

/-- Helper for `collapseWs`; the flag records whether the previous character
was part of a whitespace run (whose hyphen has already been emitted). -/
def collapseWsAux : Bool → List Char → List Char
  | _, [] => []
  | inRun, c :: rest =>
    if c.isWhitespace then
      if inRun then collapseWsAux true rest
      else '-' :: collapseWsAux true rest
    else
      c :: collapseWsAux false rest

/-- Embeds `replace(/\s+/g, "-")`: every maximal run of whitespace characters
is replaced by a single hyphen. -/
def collapseWs (l : List Char) : List Char := collapseWsAux false l

/-- The commodity half of the lookup key:
`shipmentData.commodity?.toLowerCase().replace(/\s+/g, "-")`, where a missing
field stringifies to `"undefined"` inside the template literal. -/
def commodityKey : Option String → String
  | none => "undefined"
  | some c => String.mk (collapseWs (strToLower c).data)

/-- The origin half of the lookup key: `shipmentData.origin?.toLowerCase()`,
with the same `"undefined"` stringification for a missing field. -/
def originKey : Option String → String
  | none => "undefined"
  | some o => strToLower o

/-- The computed lookup key of `generateAIAssessment`. -/
def assessmentKey (d : ShipmentData) : String :=
  commodityKey d.commodity ++ "-" ++ originKey d.origin

/-- The `'soccer-balls-china'` entry of the `responses` table in
`generateAIAssessment`. -/
def soccerBallsChinaResponse : AssessmentResponse :=
  { riskLevel := RiskLevel.high
    riskScore := 87
    flags :=
      [ "Commodity Origin Mismatch - 70% of soccer balls are manufactured in Pakistan"
      , "Unusual shipping route detected"
      , "Price point below market average" ]
    entityChecks :=
      [ ("shipper", "Clean - No blacklist entries")
      , ("importer", "Warning - Recently changed business address")
      , ("manufacturer", "Not on approved manufacturer list for this commodity") ]
    recommendations :=
      [ "Request additional documentation on manufacturing origin"
      , "Verify importer\x27s business registration and address change"
      , "Consider physical inspection of cargo"
      , "Require manufacturer certification" ]
    patternAnalysis := "Shipper typically handles auto parts (95% of shipments). This commodity represents significant deviation from normal trading pattern."
    aiInsights := "This shipment exhibits multiple red flags that warrant careful review. The combination of commodity-origin mismatch, unusual shipper behavior, and lack of manufacturer certification suggests elevated risk." }

/-- The `'default'` entry of the `responses` table in `generateAIAssessment`. -/
def defaultResponse : AssessmentResponse :=
  { riskLevel := RiskLevel.medium
    riskScore := 45
    flags :=
      [ "Standard commodity routing"
      , "All parties cleared in basic checks" ]
    entityChecks :=
      [ ("shipper", "Clean - No issues found")
      , ("importer", "Clean - No issues found")
      , ("manufacturer", "Verified") ]
    recommendations :=
      [ "Proceed with standard documentation review"
      , "No additional inspection required" ]
    patternAnalysis := "Trading pattern consistent with historical data."
    aiInsights := "This shipment appears standard with no significant risk indicators detected." }

/-- `generateAIAssessment` from `src/src/lib/mockData.ts`: computes the key
and returns `responses[key] || responses["default"]`.  The table has exactly
the two entries above, so the lookup returns the soccer-balls entry exactly
when the key equals `"soccer-balls-china"` and the default entry otherwise
(the key `"default"` itself also yields the default entry, as in the source).
-/
def generateAIAssessment (d : ShipmentData) : AssessmentResponse :=
  if assessmentKey d = "soccer-balls-china" then soccerBallsChinaResponse
  else defaultResponse

/-- `mockShipments` from `src/src/lib/mockData.ts`. -/
def mockShipments : List ShipmentRecord :=
  [ { id := "SHP-2024-001", date := "2024-11-15"
      shipper := "Global Trade Corp", importer := "Mexico Imports SA"
      commodity := "Soccer Balls", origin := "China", value := 45000
      riskLevel := RiskLevel.high, riskScore := 87
      flags := ["Commodity Origin Mismatch", "Unusual Route"]
      status := ShipmentStatus.under_review }
  , { id := "SHP-2024-002", date := "2024-11-14"
      shipper := "Pacific Logistics Ltd", importer := "Automotive Parts MX"
      commodity := "Auto Parts", origin := "Japan", value := 125000
      riskLevel := RiskLevel.low, riskScore := 15
      flags := []
      status := ShipmentStatus.approved }
  , { id := "SHP-2024-003", date := "2024-11-14"
      shipper := "Eastern Trading Co", importer := "TechnoMex Solutions"
      commodity := "Electronics", origin := "Taiwan", value := 89000
      riskLevel := RiskLevel.low, riskScore := 22
      flags := []
      status := ShipmentStatus.approved }
  , { id := "SHP-2024-004", date := "2024-11-13"
      shipper := "Flores International", importer := "Decoraciones Mexico"
      commodity := "Hibiscus Flowers", origin := "Colombia", value := 12000
      riskLevel := RiskLevel.medium, riskScore := 58
      flags := ["Origin Anomaly - Expected Nigeria"]
      status := ShipmentStatus.under_review }
  , { id := "SHP-2024-005", date := "2024-11-13"
      shipper := "Textiles Global", importer := "Fashion MX"
      commodity := "Textiles", origin := "India", value := 67000
      riskLevel := RiskLevel.low, riskScore := 18
      flags := []
      status := ShipmentStatus.approved }
  , { id := "SHP-2024-006", date := "2024-11-12"
      shipper := "Rapid Shift Logistics", importer := "Juguetes Mexico"
      commodity := "Toys", origin := "Vietnam", value := 34000
      riskLevel := RiskLevel.medium, riskScore := 64
      flags := ["Shipper on 60B List", "Unusual Commodity Change"]
      status := ShipmentStatus.rejected }
  , { id := "SHP-2024-007", date := "2024-11-12"
      shipper := "Euro Shipping AG", importer := "Maquinaria Industrial MX"
      commodity := "Machinery", origin := "Germany", value := 245000
      riskLevel := RiskLevel.low, riskScore := 12
      flags := []
      status := ShipmentStatus.approved }
  , { id := "SHP-2024-008", date := "2024-11-11"
      shipper := "Asia Commerce Ltd", importer := "ElectroMex SA"
      commodity := "Consumer Electronics", origin := "South Korea", value := 98000
      riskLevel := RiskLevel.low, riskScore := 20
      flags := []
      status := ShipmentStatus.approved } ]

/-- `mockEntities` from `src/src/lib/mockData.ts`. -/
def mockEntities : List EntityProfile :=
  [ { id := "ENT-001", name := "Global Trade Corp", type := EntityType.shipper
      riskLevel := RiskLevel.high, riskScore := 87, country := "China"
      registrationDate := "2018-03-15", lastActivity := "2024-11-15"
      blacklistStatus :=
        { list60B := false, approvedManufacturer := true
          otherFlags := ["Previous customs violations"] }
      newsItems :=
        [ { date := "2024-09-12", source := "Trade Compliance News"
            headline := "Global Trade Corp faces customs investigation in Brazil"
            sentiment := Sentiment.negative
            excerpt := "Authorities have launched an investigation into alleged documentation irregularities..." }
        , { date := "2024-06-05", source := "Business Wire"
            headline := "Company expands operations to Southeast Asia"
            sentiment := Sentiment.neutral
            excerpt := "Global Trade Corp announces new distribution centers in Thailand and Vietnam..." } ]
      tradingPatterns :=
        [ { commodity := "Auto Parts", frequency := 45
            lastShipment := "2024-10-28", normalOrigins := ["China", "Japan"] }
        , { commodity := "Soccer Balls", frequency := 2
            lastShipment := "2024-11-15", normalOrigins := ["Pakistan"] } ] }
  , { id := "ENT-002", name := "Rapid Shift Logistics", type := EntityType.shipper
      riskLevel := RiskLevel.high, riskScore := 92, country := "Panama"
      registrationDate := "2020-08-22", lastActivity := "2024-11-12"
      blacklistStatus :=
        { list60B := true, approvedManufacturer := false
          otherFlags := ["Tax evasion investigation", "Shell company indicators"] }
      newsItems :=
        [ { date := "2024-10-18", source := "Latin America Financial Times"
            headline := "Panama authorities investigate Rapid Shift for tax fraud"
            sentiment := Sentiment.negative
            excerpt := "The company is under investigation for alleged tax evasion schemes involving offshore accounts..." }
        , { date := "2024-08-02", source := "Global Trade Alert"
            headline := "Rapid Shift linked to suspicious cargo incidents"
            sentiment := Sentiment.negative
            excerpt := "Multiple customs agencies report irregularities in shipments handled by the logistics firm..." } ]
      tradingPatterns :=
        [ { commodity := "Toys", frequency := 8
            lastShipment := "2024-11-12", normalOrigins := ["China", "Vietnam"] }
        , { commodity := "Electronics", frequency := 3
            lastShipment := "2024-09-20", normalOrigins := ["China"] } ] }
  , { id := "ENT-003", name := "Pacific Logistics Ltd", type := EntityType.shipper
      riskLevel := RiskLevel.low, riskScore := 15, country := "Japan"
      registrationDate := "2010-05-10", lastActivity := "2024-11-14"
      blacklistStatus :=
        { list60B := false, approvedManufacturer := true, otherFlags := [] }
      newsItems :=
        [ { date := "2024-10-05", source := "Asian Business Review"
            headline := "Pacific Logistics wins excellence award for compliance"
            sentiment := Sentiment.positive
            excerpt := "The company has been recognized for its outstanding track record in international trade compliance..." }
        , { date := "2024-07-15", source := "Logistics Today"
            headline := "Pacific Logistics expands green shipping initiatives"
            sentiment := Sentiment.positive
            excerpt := "New environmentally-friendly fleet reduces carbon emissions by 30%..." } ]
      tradingPatterns :=
        [ { commodity := "Auto Parts", frequency := 120
            lastShipment := "2024-11-14", normalOrigins := ["Japan", "South Korea"] }
        , { commodity := "Machinery", frequency := 45
            lastShipment := "2024-11-10", normalOrigins := ["Japan", "Germany"] } ] }
  , { id := "ENT-004", name := "Flores International", type := EntityType.shipper
      riskLevel := RiskLevel.medium, riskScore := 58, country := "Colombia"
      registrationDate := "2015-11-03", lastActivity := "2024-11-13"
      blacklistStatus :=
        { list60B := false, approvedManufacturer := true
          otherFlags := ["Minor documentation issues"] }
      newsItems :=
        [ { date := "2024-08-20", source := "Agriculture Trade News"
            headline := "Flores International expands flower export operations"
            sentiment := Sentiment.positive
            excerpt := "Company increases production capacity to meet growing international demand..." } ]
      tradingPatterns :=
        [ { commodity := "Hibiscus Flowers", frequency := 24
            lastShipment := "2024-11-13", normalOrigins := ["Colombia", "Ecuador"] }
        , { commodity := "Roses", frequency := 56
            lastShipment := "2024-11-12", normalOrigins := ["Colombia"] } ] }
  ]

/-- Whether `pat` occurs at the head of `l`. -/
def charsStartWith : List Char → List Char → Bool
  | [], _ => true
  | _ :: _, [] => false
  | a :: as, b :: bs => a == b && charsStartWith as bs

/-- Whether `pat` occurs contiguously anywhere inside `l`. -/
def charsContain (pat : List Char) : List Char → Bool
  | [] => charsStartWith pat []
  | b :: bs => charsStartWith pat (b :: bs) || charsContain pat bs

/-- Case-insensitive substring test used to recognise flag categories
(e.g. an origin-mismatch flag or a tax-blacklist flag) inside flag strings. -/
def flagMentions (f pat : String) : Bool :=
  charsContain (strToLower pat).data (strToLower f).data

/-- Modelled from the spec: the shared score-to-level threshold mapping of
section 4.4, reused by every component that derives a level from a score
(`score >= 70` high, `30 <= score < 70` medium, `score < 30` low).  The
function itself lives in the Python backend service, which is not under the
checked-in sources. -/
def riskLevelOfScore (s : Nat) : RiskLevel :=
  if 70 ≤ s then RiskLevel.high
  else if 30 ≤ s then RiskLevel.medium
  else RiskLevel.low

/-- Modelled from the spec: the hard-failure error taxonomy of section 7
(`ValidationError`, `InvalidTransitionError`); the raising code lives in the
missing Python backend service. -/
inductive EngineError where
  | validationError
  | invalidTransition
deriving DecidableEq, Repr

/-- Modelled from the spec: `assessShipment` (section 6 public surface).  The
Python backend service behind the `/api/assess` proxy is not under the
checked-in sources; only its HTTP caller and testing guide are.  Per
sections 4.5 and 7, a request missing any of the required fields
`{shipper, importer, commodity, origin}` fails with `ValidationError` before
any scoring runs; otherwise the assessment is produced by the in-repo
reference scoring `generateAIAssessment`.  A returned `Except.error` carries
no `AssessmentResponse`, so no partial assessment is ever produced. -/
def assessShipment (d : ShipmentData) : Except EngineError AssessmentResponse :=
  if d.shipper.isNone || d.importer.isNone || d.commodity.isNone || d.origin.isNone then
    Except.error EngineError.validationError
  else
    Except.ok (generateAIAssessment d)

/-- `EntityRiskProfile` as in section 4.4 of the spec (the per-entity result
of the entity risk resolver). -/
structure EntityRiskProfile where
  name : String
  riskLevel : RiskLevel
  riskScore : Nat
  isBlacklisted : Bool
  flags : List String
deriving DecidableEq, Repr

/-- Number of `sentiment = negative` news items of an entity. -/
def negNewsCount (items : List NewsItem) : Nat :=
  (items.filter (fun n => decide (n.sentiment = Sentiment.negative))).length

/-- Modelled from the spec: the entity risk resolver of section 4.4 (the
implementation lives in the missing Python backend).  Additive score, capped
at 100: `onTaxList` (the 60B tax blacklist, field `list60B` in the source
data) contributes 50 and sets `isBlacklisted`; a manufacturer-type entity
not on the approved-manufacturer registry contributes 15; each entry of
`otherFlags` contributes 10; each negative news item contributes 8, capped
at 24.  Level via the shared thresholds.  The tax blacklist also emits a
tax-blacklist flag ahead of the entity's other flags. -/
def resolveProfile (e : EntityProfile) : EntityRiskProfile :=
  let base : Nat :=
    (if e.blacklistStatus.list60B then 50 else 0)
    + (if e.type = EntityType.manufacturer ∧ e.blacklistStatus.approvedManufacturer = false then 15 else 0)
    + 10 * e.blacklistStatus.otherFlags.length
    + min 24 (8 * negNewsCount e.newsItems)
  let score := min 100 base
  { name := e.name
    riskLevel := riskLevelOfScore score
    riskScore := score
    isBlacklisted := e.blacklistStatus.list60B
    flags :=
      (if e.blacklistStatus.list60B then ["Entity on 60B tax blacklist"] else [])
        ++ e.blacklistStatus.otherFlags }

/-- Modelled from the spec: the registry lookup of section 4.1 over the
repository's known entries (`mockEntities`), case-insensitive exact name
match; unknown entities yield no entry, never an error. -/
def lookupEntity (name : String) : Option EntityProfile :=
  mockEntities.find? (fun e => strToLower e.name == strToLower name)

/-- Modelled from the spec: the all-false/empty default record for an entity
unknown to the registry (section 4.1). -/
def unknownEntity (name : String) (t : EntityType) : EntityProfile :=
  { id := "", name := name, type := t
    riskLevel := RiskLevel.low, riskScore := 0, country := ""
    registrationDate := "", lastActivity := ""
    blacklistStatus := { list60B := false, approvedManufacturer := false, otherFlags := [] }
    newsItems := [], tradingPatterns := [] }

/-- Modelled from the spec: resolve a named party's risk profile, using the
registry entry when the name is known and the all-false default otherwise. -/
def resolveEntityByName (name : String) (t : EntityType) : EntityRiskProfile :=
  match lookupEntity name with
  | some e => resolveProfile e
  | none => resolveProfile (unknownEntity name t)

/-- Modelled from the spec: the commodity-to-expected-origins rule table of
section 4.2 (Soccer Balls from Pakistan, Hibiscus Flowers from Nigeria),
keyed by lower-cased commodity name. -/
def expectedOrigins : List (String × List String) :=
  [ ("soccer balls", ["pakistan"])
  , ("hibiscus flowers", ["nigeria"]) ]

/-- Modelled from the spec: the commodity-origin anomaly detector of
section 4.2.  Case-insensitive matching; a commodity absent from the rule
table never produces a flag; a commodity with a rule whose origin is outside
the expected set produces a mismatch flag naming the expected origins. -/
def anomalyFlag (commodity origin : String) : Option String :=
  match expectedOrigins.find? (fun p => p.fst == strToLower commodity) with
  | none => none
  | some p =>
    if p.snd.contains (strToLower origin) then none
    else some ("Commodity origin mismatch - expected " ++ String.intercalate ", " p.snd)

/-- Order approval status, the four states of section 4.6 (also in
`OrderAssessmentResponse` of `src/src/pages/CreateOrder.tsx`). -/
inductive ApprovalStatus where
  | pending_approval
  | auto_approved
  | approved
  | rejected
deriving DecidableEq, Repr

/-- `OrderAssessmentResponse` from `src/src/pages/CreateOrder.tsx`,
restricted to the engine-derived fields. -/
structure OrderAssessment where
  overallRiskLevel : RiskLevel
  overallRiskScore : Nat
  requiresApproval : Bool
  approvalStatus : ApprovalStatus
  shipperAssessment : EntityRiskProfile
  buyerAssessment : EntityRiskProfile
  flags : List String
deriving DecidableEq, Repr

/-- Order input as posted by `src/src/pages/CreateOrder.tsx` to
`/api/orders/create` (the engine-relevant fields). -/
structure OrderInput where
  shipper_name : String
  shipper_country : String
  buyer_name : String
  buyer_country : String
  commodity : String
  origin : String
deriving DecidableEq, Repr

/-- The resolved shipper profile of an order. -/
def shipperProfile (o : OrderInput) : EntityRiskProfile :=
  resolveEntityByName o.shipper_name EntityType.shipper

/-- The resolved buyer profile of an order. -/
def buyerProfile (o : OrderInput) : EntityRiskProfile :=
  resolveEntityByName o.buyer_name EntityType.importer

/-- Modelled from the spec: the auto-approval condition of section 4.6 —
overall level low, neither party blacklisted, and no anomaly flags. -/
def autoApprovable (o : OrderInput) : Bool :=
  decide (riskLevelOfScore (max (shipperProfile o).riskScore (buyerProfile o).riskScore) = RiskLevel.low)
    && !(shipperProfile o).isBlacklisted
    && !(buyerProfile o).isBlacklisted
    && (anomalyFlag o.commodity o.origin).isNone

/-- Modelled from the spec: `createOrder` (section 4.6 creation step; the
implementation lives in the Python backend behind the `/api/orders/create`
proxy).  Both parties are resolved, the overall score is the maximum of the
two profile scores, the level comes from the shared thresholds, and the
auto-approval policy decides the initial approval status. -/
def createOrder (o : OrderInput) : OrderAssessment :=
  { overallRiskLevel := riskLevelOfScore (max (shipperProfile o).riskScore (buyerProfile o).riskScore)
    overallRiskScore := max (shipperProfile o).riskScore (buyerProfile o).riskScore
    requiresApproval := !autoApprovable o
    approvalStatus :=
      if autoApprovable o then ApprovalStatus.auto_approved else ApprovalStatus.pending_approval
    shipperAssessment := shipperProfile o
    buyerAssessment := buyerProfile o
    flags :=
      (anomalyFlag o.commodity o.origin).toList
        ++ (shipperProfile o).flags ++ (buyerProfile o).flags }

/-- Modelled from the spec: `transitionOrder` (sections 4.6 and 7; no
server-side transition code exists under the checked-in sources — the UI
buttons in `CreateOrder.tsx` only raise toasts).  A transition is legal only
from `pending_approval` to `approved` or `rejected`; any other attempt fails
with `InvalidTransitionError`, and on failure no updated order is produced,
so the stored state is unchanged. -/
def transitionOrder (o : OrderAssessment) (target : ApprovalStatus) :
    Except EngineError OrderAssessment :=
  if o.approvalStatus = ApprovalStatus.pending_approval
      ∧ (target = ApprovalStatus.approved ∨ target = ApprovalStatus.rejected) then
    Except.ok { o with approvalStatus := target, requiresApproval := false }
  else
    Except.error EngineError.invalidTransition

/-- `generateAIAssessment` depends on its input only through the computed
lookup key. -/
theorem generateAIAssessment_key_congr {d₁ d₂ : ShipmentData}
    (h : assessmentKey d₁ = assessmentKey d₂) :
    generateAIAssessment d₁ = generateAIAssessment d₂ := by
  unfold generateAIAssessment
  rw [h]

/-- C1: a request missing any of the four required fields
{shipper, importer, commodity, origin} makes `assessShipment` fail with
`ValidationError`; the `Except.error` result carries no assessment, so no
risk score is computed and no partial assessment is returned. -/
theorem c1_missing_field_validation_error (d : ShipmentData)
    (h : d.shipper = none ∨ d.importer = none ∨ d.commodity = none ∨ d.origin = none) :
    assessShipment d = Except.error EngineError.validationError := by
  unfold assessShipment
  rcases h with h | h | h | h <;> simp [h]

/-- Witness for C1 at a request with a missing shipper. -/
theorem c1_missing_field_validation_error_witness :
    assessShipment
        { shipper := none, importer := some "Mexico Imports SA"
          commodity := some "Soccer Balls", origin := some "China" }
      = Except.error EngineError.validationError :=
  c1_missing_field_validation_error _ (Or.inl rfl)

/-- C2: every request with commodity "Soccer Balls" and origin "China" is
assessed `high` with an origin-mismatch flag referencing Pakistan; every
request with commodity "Soccer Balls" and origin "Pakistan" is assessed with
no origin-mismatch flag at all. -/
theorem c2_soccer_balls_origin_mismatch (d : ShipmentData) :
    (d.commodity = some "Soccer Balls" → d.origin = some "China" →
      (generateAIAssessment d).riskLevel = RiskLevel.high ∧
      ∃ f ∈ (generateAIAssessment d).flags,
        flagMentions f "origin mismatch" = true ∧ flagMentions f "pakistan" = true) ∧
    (d.commodity = some "Soccer Balls" → d.origin = some "Pakistan" →
      ∀ f ∈ (generateAIAssessment d).flags, flagMentions f "origin mismatch" = false) := by
  obtain ⟨sh, im, c, o⟩ := d
  constructor
  · intro hc ho
    simp only [ShipmentData.commodity] at hc
    simp only [ShipmentData.origin] at ho
    subst hc
    subst ho
    have hkey : assessmentKey
        { shipper := sh, importer := im
          commodity := some "Soccer Balls", origin := some "China" }
        = "soccer-balls-china" := by
      show commodityKey (some "Soccer Balls") ++ "-" ++ originKey (some "China")
          = "soccer-balls-china"
      decide
    have hgen : generateAIAssessment
        { shipper := sh, importer := im
          commodity := some "Soccer Balls", origin := some "China" }
        = soccerBallsChinaResponse := by
      unfold generateAIAssessment
      rw [if_pos hkey]
    rw [hgen]
    decide
  · intro hc ho
    simp only [ShipmentData.commodity] at hc
    simp only [ShipmentData.origin] at ho
    subst hc
    subst ho
    have hkey : assessmentKey
        { shipper := sh, importer := im
          commodity := some "Soccer Balls", origin := some "Pakistan" }
        = "soccer-balls-pakistan" := by
      show commodityKey (some "Soccer Balls") ++ "-" ++ originKey (some "Pakistan")
          = "soccer-balls-pakistan"
      decide
    have hgen : generateAIAssessment
        { shipper := sh, importer := im
          commodity := some "Soccer Balls", origin := some "Pakistan" }
        = defaultResponse := by
      unfold generateAIAssessment
      rw [if_neg]
      rw [hkey]
      decide
    rw [hgen]
    decide

/-- Witness for C2: both halves applied at concrete requests. -/
theorem c2_soccer_balls_origin_mismatch_witness :
    ((generateAIAssessment
        { shipper := some "Global Trade Corp", importer := some "Mexico Imports SA"
          commodity := some "Soccer Balls", origin := some "China" }).riskLevel = RiskLevel.high ∧
      ∃ f ∈ (generateAIAssessment
        { shipper := some "Global Trade Corp", importer := some "Mexico Imports SA"
          commodity := some "Soccer Balls", origin := some "China" }).flags,
        flagMentions f "origin mismatch" = true ∧ flagMentions f "pakistan" = true) ∧
    (∀ f ∈ (generateAIAssessment
        { shipper := some "Global Trade Corp", importer := some "Mexico Imports SA"
          commodity := some "Soccer Balls", origin := some "Pakistan" }).flags,
      flagMentions f "origin mismatch" = false) :=
  ⟨(c2_soccer_balls_origin_mismatch _).1 rfl rfl,
   (c2_soccer_balls_origin_mismatch _).2 rfl rfl⟩

/-- C3: every assessment produced by `assessShipment` has a risk score
between 0 and 100 (scores are naturals, so only the upper bound is
non-trivial) whose risk level is exactly the shared threshold mapping of the
score; the threshold mapping sends 70 to high, 69 to medium, 30 to medium
and 29 to low. -/
theorem c3_score_level_consistent (d : ShipmentData) (r : AssessmentResponse)
    (h : assessShipment d = Except.ok r) :
    (r.riskScore ≤ 100 ∧ r.riskLevel = riskLevelOfScore r.riskScore) ∧
    (riskLevelOfScore 70 = RiskLevel.high ∧ riskLevelOfScore 69 = RiskLevel.medium ∧
     riskLevelOfScore 30 = RiskLevel.medium ∧ riskLevelOfScore 29 = RiskLevel.low) := by
  refine ⟨?_, by decide⟩
  unfold assessShipment at h
  split at h
  · cases h
  · injection h with h
    subst h
    unfold generateAIAssessment
    split
    · decide
    · decide

/-- Witness for C3 at a concrete valid request assessed with the default
response. -/
theorem c3_score_level_consistent_witness :
    (defaultResponse.riskScore ≤ 100 ∧
     defaultResponse.riskLevel = riskLevelOfScore defaultResponse.riskScore) ∧
    (riskLevelOfScore 70 = RiskLevel.high ∧ riskLevelOfScore 69 = RiskLevel.medium ∧
     riskLevelOfScore 30 = RiskLevel.medium ∧ riskLevelOfScore 29 = RiskLevel.low) :=
  c3_score_level_consistent
    { shipper := some "Pacific Logistics Ltd", importer := some "Automotive Parts MX"
      commodity := some "Auto Parts", origin := some "Japan" }
    defaultResponse
    (by
      unfold assessShipment
      rw [if_neg]
      · unfold generateAIAssessment
        rw [if_neg]
        intro hkey
        exact absurd hkey (by decide)
      · decide)

/-- C8: the engine is deterministic — two calls on identical request data
yield identical results: the same assessment, with equal scores, equal flag
lists and equal recommendation lists (the embedded scoring is a pure
function of its input). -/
theorem c8_deterministic (d₁ d₂ : ShipmentData) (h : d₁ = d₂) :
    assessShipment d₁ = assessShipment d₂ ∧
    (generateAIAssessment d₁).riskScore = (generateAIAssessment d₂).riskScore ∧
    (generateAIAssessment d₁).flags = (generateAIAssessment d₂).flags ∧
    (generateAIAssessment d₁).recommendations = (generateAIAssessment d₂).recommendations := by
  subst h
  exact ⟨rfl, rfl, rfl, rfl⟩

/-- Witness for C8 at a concrete request. -/
theorem c8_deterministic_witness :
    assessShipment
        { shipper := some "Global Trade Corp", importer := some "Mexico Imports SA"
          commodity := some "Soccer Balls", origin := some "China" }
      = assessShipment
        { shipper := some "Global Trade Corp", importer := some "Mexico Imports SA"
          commodity := some "Soccer Balls", origin := some "China" } ∧
    (generateAIAssessment
        { shipper := some "Global Trade Corp", importer := some "Mexico Imports SA"
          commodity := some "Soccer Balls", origin := some "China" }).riskScore
      = (generateAIAssessment
        { shipper := some "Global Trade Corp", importer := some "Mexico Imports SA"
          commodity := some "Soccer Balls", origin := some "China" }).riskScore ∧
    (generateAIAssessment
        { shipper := some "Global Trade Corp", importer := some "Mexico Imports SA"
          commodity := some "Soccer Balls", origin := some "China" }).flags
      = (generateAIAssessment
        { shipper := some "Global Trade Corp", importer := some "Mexico Imports SA"
          commodity := some "Soccer Balls", origin := some "China" }).flags ∧
    (generateAIAssessment
        { shipper := some "Global Trade Corp", importer := some "Mexico Imports SA"
          commodity := some "Soccer Balls", origin := some "China" }).recommendations
      = (generateAIAssessment
        { shipper := some "Global Trade Corp", importer := some "Mexico Imports SA"
          commodity := some "Soccer Balls", origin := some "China" }).recommendations :=
  c8_deterministic _ _ rfl

/-- C9: the anomaly-key matching is case-insensitive — replacing the
commodity and origin strings of a request by case variants (strings with the
same lower-casing) yields the same assessment result. -/
theorem c9_case_insensitive (d : ShipmentData) (c c2 o o2 : String)
    (hc : d.commodity = some c) (ho : d.origin = some o)
    (hc2 : strToLower c2 = strToLower c) (ho2 : strToLower o2 = strToLower o) :
    generateAIAssessment { d with commodity := some c2, origin := some o2 }
      = generateAIAssessment d := by
  apply generateAIAssessment_key_congr
  obtain ⟨sh, im, cc, oo⟩ := d
  simp only [ShipmentData.commodity] at hc
  simp only [ShipmentData.origin] at ho
  subst hc
  subst ho
  show commodityKey (some c2) ++ "-" ++ originKey (some o2)
      = commodityKey (some c) ++ "-" ++ originKey (some o)
  simp only [commodityKey, originKey]
  rw [hc2, ho2]

/-- Witness for C9: upper-cased commodity and origin give the same result as
the original request. -/
theorem c9_case_insensitive_witness :
    generateAIAssessment
        { shipper := some "Global Trade Corp", importer := some "Mexico Imports SA"
          commodity := some "SOCCER BALLS", origin := some "CHINA" }
      = generateAIAssessment
        { shipper := some "Global Trade Corp", importer := some "Mexico Imports SA"
          commodity := some "Soccer Balls", origin := some "China" } :=
  c9_case_insensitive
    { shipper := some "Global Trade Corp", importer := some "Mexico Imports SA"
      commodity := some "Soccer Balls", origin := some "China" }
    "Soccer Balls" "SOCCER BALLS" "China" "CHINA" rfl rfl (by decide) (by decide)

/-- C7: every entity on the 60B tax list resolves to a blacklisted risk
profile whose score is at least 50 points. -/
theorem c7_tax_list_blacklisted (e : EntityProfile)
    (h : e.blacklistStatus.list60B = true) :
    (resolveProfile e).isBlacklisted = true ∧ 50 ≤ (resolveProfile e).riskScore := by
  constructor
  · simpa [resolveProfile] using h
  · simp only [resolveProfile, h, if_true]
    have hb : ∀ a b c : Nat, 50 ≤ min 100 (50 + a + b + c) := by
      intro a b c
      omega
    exact hb _ _ _

/-- Witness for C7 at the registry entry for Rapid Shift Logistics
(ENT-002), the entity with `list60B = true`. -/
theorem c7_tax_list_blacklisted_witness :
    (resolveProfile (mockEntities.get ⟨1, by decide⟩)).isBlacklisted = true ∧
    50 ≤ (resolveProfile (mockEntities.get ⟨1, by decide⟩)).riskScore :=
  c7_tax_list_blacklisted _ (by decide)

/-- C10: every built-in record of `mockShipments` and `mockEntities`
satisfies the score/level invariant — the risk score (a natural, hence
at least 0) is at most 100 and the stored risk level is exactly the shared
threshold mapping of that score. -/
theorem c10_dataset_score_level_invariant :
    (∀ r ∈ mockShipments, r.riskScore ≤ 100 ∧ r.riskLevel = riskLevelOfScore r.riskScore) ∧
    (∀ e ∈ mockEntities, e.riskScore ≤ 100 ∧ e.riskLevel = riskLevelOfScore e.riskScore) := by
  decide

/-- The auto-approval test of an order, spelled out as a proposition over
the resolved profiles and the anomaly detector. -/
theorem autoApprovable_iff (o : OrderInput) :
    autoApprovable o = true ↔
      (riskLevelOfScore (max (shipperProfile o).riskScore (buyerProfile o).riskScore)
          = RiskLevel.low ∧
       (shipperProfile o).isBlacklisted = false ∧
       (buyerProfile o).isBlacklisted = false ∧
       anomalyFlag o.commodity o.origin = none) := by
  unfold autoApprovable
  simp [Bool.and_eq_true, decide_eq_true_eq, Bool.not_eq_true',
    Option.isNone_iff_eq_none, and_assoc]

/-- C5: at order creation, the order is auto-approved with no approval
required exactly when the overall risk level is low, neither party is
blacklisted and no anomaly flag exists; in every other case it is created
pending approval with approval required. -/
theorem c5_auto_approval_policy (o : OrderInput) :
    (((createOrder o).approvalStatus = ApprovalStatus.auto_approved ∧
        (createOrder o).requiresApproval = false) ↔
      ((createOrder o).overallRiskLevel = RiskLevel.low ∧
       (createOrder o).shipperAssessment.isBlacklisted = false ∧
       (createOrder o).buyerAssessment.isBlacklisted = false ∧
       anomalyFlag o.commodity o.origin = none)) ∧
    (((createOrder o).approvalStatus = ApprovalStatus.pending_approval ∧
        (createOrder o).requiresApproval = true) ↔
      ¬((createOrder o).overallRiskLevel = RiskLevel.low ∧
        (createOrder o).shipperAssessment.isBlacklisted = false ∧
        (createOrder o).buyerAssessment.isBlacklisted = false ∧
        anomalyFlag o.commodity o.origin = none)) := by
  have hiff := autoApprovable_iff o
  cases hb : autoApprovable o with
  | false =>
    rw [hb] at hiff
    simp only [createOrder, hb] at *
    simp only [Bool.false_eq_true, false_iff] at hiff
    constructor
    · simp [hiff]
    · simp [hiff]
  | true =>
    rw [hb] at hiff
    simp only [createOrder, hb] at *
    simp only [true_iff] at hiff
    constructor
    · simp [hiff]
    · simp [hiff]

/-- C6: a transition succeeds exactly when the order is `pending_approval`
and the target is `approved` or `rejected`; from any other state (in
particular the terminal states `auto_approved`, `approved`, `rejected`)
every attempt fails with `InvalidTransitionError`, and the failing call
produces no updated order, so the stored state is unchanged. -/
theorem c6_transition_legality (o : OrderAssessment) (t : ApprovalStatus) :
    ((∃ o2, transitionOrder o t = Except.ok o2) ↔
      (o.approvalStatus = ApprovalStatus.pending_approval ∧
       (t = ApprovalStatus.approved ∨ t = ApprovalStatus.rejected))) ∧
    (o.approvalStatus ≠ ApprovalStatus.pending_approval →
      transitionOrder o t = Except.error EngineError.invalidTransition) := by
  constructor
  · unfold transitionOrder
    split
    · rename_i h
      simp only [Except.ok.injEq, exists_eq']
      exact (iff_true_right h).mpr trivial
    · rename_i h
      refine iff_of_false ?_ h
      rintro ⟨o2, hcon⟩
      cases hcon
  · intro hterm
    unfold transitionOrder
    rw [if_neg]
    intro hcon
    exact hterm hcon.1

/-- Witness for C6: transitioning an order that is already `approved` fails
with `InvalidTransitionError`. -/
theorem c6_transition_legality_witness :
    transitionOrder
        { overallRiskLevel := RiskLevel.low, overallRiskScore := 0
          requiresApproval := false, approvalStatus := ApprovalStatus.approved
          shipperAssessment :=
            { name := "Pacific Logistics Ltd", riskLevel := RiskLevel.low
              riskScore := 0, isBlacklisted := false, flags := [] }
          buyerAssessment :=
            { name := "Automotive Parts MX", riskLevel := RiskLevel.low
              riskScore := 0, isBlacklisted := false, flags := [] }
          flags := [] }
        ApprovalStatus.approved
      = Except.error EngineError.invalidTransition :=
  (c6_transition_legality _ ApprovalStatus.approved).2 (by decide)

/-- The Rapid Shift Logistics order of the end-to-end scenario: shipper on
the 60B tax list, buyer Juguetes Mexico, commodity Toys from Vietnam. -/
def rapidShiftToyOrder : OrderInput :=
  { shipper_name := "Rapid Shift Logistics", shipper_country := "Panama"
    buyer_name := "Juguetes Mexico", buyer_country := "Mexico"
    commodity := "Toys", origin := "Vietnam" }

/-- C4: the Rapid Shift Logistics / Juguetes Mexico / Toys / Vietnam order
is assessed with an overall level given by the shared thresholds that is
high or medium, its flags include a tax-blacklist entry, and it requires
approval. -/
theorem c4_rapid_shift_order :
    ((createOrder rapidShiftToyOrder).overallRiskLevel
        = riskLevelOfScore (createOrder rapidShiftToyOrder).overallRiskScore ∧
      ((createOrder rapidShiftToyOrder).overallRiskLevel = RiskLevel.high ∨
       (createOrder rapidShiftToyOrder).overallRiskLevel = RiskLevel.medium)) ∧
    (∃ f ∈ (createOrder rapidShiftToyOrder).flags,
      flagMentions f "60B" = true ∧ flagMentions f "tax blacklist" = true) ∧
    (createOrder rapidShiftToyOrder).requiresApproval = true := by
  decide
